import Mathlib

/-!
# Device registry of `tc/core/utils/cuda_info.cc`

A shallow embedding of `src/core/utils/cuda_info.cc` (namespace `tc`): the
enumeration pass `init`, the thread-local accessor `CudaGPUInfo::GPUInfo` and
the query methods of `CudaGPUInfo`.

Conventions of the embedding.

* The CUDA runtime is foreign code.  It is a parameter, `Runtime`: a record
  giving, for each API entry point the file calls, the error code the call
  returns and the value it leaves in its out-parameter.  One `Runtime` value
  describes the runtime during one operation; a sequence of accessor calls
  takes one `Runtime` per call, so the runtime may change between calls.
* A C++ call either returns, throws, or has undefined behaviour: `Outcome`.
* Every function also yields the list of side effects it performed, in
  order (`Event`): the runtime calls issued, the log line written and the
  `new CudaGPUInfo` allocation.  `Eff α` is an outcome with that list.
* `int` is 32 bits and `size_t` 64 bits (LP64).  Values are `Int`/`Nat`;
  conversions between the two C types are explicit (`toSizeT`, `toCInt`).
* Memory exhaustion (`std::bad_alloc`) is not modelled.
-/

namespace tc

/-! ## C++ values, exceptions and effects -/

/-- Smallest value of a C `int`. -/
def INT_MIN : Int := -2147483648

/-- Largest value of a C `int`. -/
def INT_MAX : Int := 2147483647

/-- The integer is a value of the C type `int`. -/
def isInt (z : Int) : Prop := INT_MIN ≤ z ∧ z ≤ INT_MAX

instance (z : Int) : Decidable (isInt z) := by
  unfold isInt; exact inferInstance

/-- Conversion of an `int` to `size_t`: reduction modulo `2^64`. -/
def toSizeT (z : Int) : Nat := (z % 18446744073709551616).toNat

/-- Conversion of a `size_t` to `int` (the `return gpuNames_.size()` of
`NumberGPUs`): reduction modulo `2^32` into the signed range. -/
def toCInt (n : Nat) : Int :=
  let r : Int := (n : Int) % 4294967296
  if r ≤ INT_MAX then r else r - 4294967296

/-- The value `std::vector<std::string>::max_size()` (libstdc++, LP64:
`PTRDIFF_MAX / sizeof(std::string)`). -/
def vector_max_size : Nat := 9223372036854775807 / 32

/-- The C++ exceptions the file can raise; the constructor is the dynamic
type of the exception object, `runtime_error` carries its `what()` text. -/
inductive Exn where
  /-- The exception `std::runtime_error(what)`. -/
  | runtime_error (what : String)
  /-- The exception `std::out_of_range`, thrown by `std::vector::at`. -/
  | out_of_range
  /-- The exception `std::length_error`, thrown by `std::vector::reserve`. -/
  | length_error
  deriving DecidableEq, Repr

/-- The exception object has dynamic type `std::runtime_error`. -/
def Exn.isRuntimeError : Exn → Bool
  | .runtime_error _ => true
  | _ => false

/-- How a C++ call ends. -/
inductive Outcome (α : Type) where
  /-- Normal return with a value. -/
  | ok (a : α)
  /-- An exception propagates to the caller. -/
  | throw (e : Exn)
  /-- Undefined behaviour (dereferencing an empty `unique_ptr`). -/
  | undefined
  deriving DecidableEq, Repr

/-- Observable side effects, in program order. -/
inductive Event where
  /-- A call of `cudaGetDeviceCount`. -/
  | cudaGetDeviceCount
  /-- A call of `cudaGetDeviceProperties(&deviceProp, device)`. -/
  | cudaGetDeviceProperties (device : Int)
  /-- A call of `cudaGetDevice`. -/
  | cudaGetDevice
  /-- A call of `cudaDeviceSynchronize`. -/
  | cudaDeviceSynchronize
  /-- A line written with `LOG(INFO)`. -/
  | logInfo (msg : String)
  /-- An object allocated by `new CudaGPUInfo(...)`. -/
  | newCudaGPUInfo
  deriving DecidableEq, Repr

/-- An effectful computation: its outcome and the events it performed. -/
structure Eff (α : Type) where
  /-- How the computation ended. -/
  out : Outcome α
  /-- The side effects performed, oldest first. -/
  events : List Event

/-- Sequencing: the continuation runs only after a normal return; the events
of both parts are concatenated. -/
def Eff.bind {α β : Type} (m : Eff α) (f : α → Eff β) : Eff β :=
  match m.out with
  | .ok a => ⟨(f a).out, m.events ++ (f a).events⟩
  | .throw e => ⟨.throw e, m.events⟩
  | .undefined => ⟨.undefined, m.events⟩

instance : Monad Eff where
  pure a := ⟨.ok a, []⟩
  bind := Eff.bind

/-- The statement `throw e;`. -/
def throwExn {α : Type} (e : Exn) : Eff α := ⟨.throw e, []⟩

/-- A call into the runtime: records the event and returns what the runtime
answered. -/
def call {α : Type} (ev : Event) (answer : α) : Eff α := ⟨.ok answer, [ev]⟩

/-! ## The CUDA runtime -/

/-- The behaviour of the CUDA runtime during one operation. -/
structure Runtime where
  /-- Result of `cudaGetDeviceCount(&deviceCount)`: the error code and the
  value of `deviceCount` after the call (`0`, its initial value, when the
  runtime wrote nothing). -/
  cudaGetDeviceCount : Int × Int
  /-- Result of `cudaGetDeviceProperties(&deviceProp, i)`: the error code and
  the string in `deviceProp.name`. -/
  cudaGetDeviceProperties : Int → Int × String
  /-- Result of `cudaGetDevice(&deviceID)`: the error code and the value of
  `deviceID` after the call. -/
  cudaGetDevice : Int × Int
  /-- Result of `cudaDeviceSynchronize()`: the error code. -/
  cudaDeviceSynchronize : Int
  /-- The diagnostic text `cudaGetErrorString(error_id)`. -/
  cudaGetErrorString : Int → String

/-- The macro `TC_CUDA_DRIVERAPI_ENFORCE(condition)`, applied to the error
code the condition evaluated to. -/
def TC_CUDA_DRIVERAPI_ENFORCE (rt : Runtime) (error_id : Int) : Eff Unit :=
  if error_id ≠ 0 then
    throwExn (.runtime_error (rt.cudaGetErrorString error_id))
  else
    pure ()

/-! ## Enumeration -/

/-- The loop `for (int i = 0; i < deviceCount; ++i)` of `init`, entered with
the current `i` and `gpuNames`; the first argument is the number of
iterations left, `deviceCount - i`, so the test `i < deviceCount` is the test
that it is not zero. -/
def initLoop (rt : Runtime) : Nat → Int → List String → Eff (List String)
  | 0, _, gpuNames => pure gpuNames
  | n + 1, i, gpuNames => do
    let (error_id, name) ← call (.cudaGetDeviceProperties i) (rt.cudaGetDeviceProperties i)
    TC_CUDA_DRIVERAPI_ENFORCE rt error_id
    initLoop rt n (i + 1) (gpuNames ++ [name])

/-- The function `init()` of the anonymous namespace. -/
def init (rt : Runtime) : Eff (List String) := do
  let (err_id, deviceCount) ← call .cudaGetDeviceCount rt.cudaGetDeviceCount
  if err_id = 35 ∨ err_id = 30 then
    call (.logInfo "Cuda driver not available.\n") []
  else do
    TC_CUDA_DRIVERAPI_ENFORCE rt err_id
    if deviceCount = 0 then
      pure []
    else if vector_max_size < toSizeT deviceCount then
      -- gpuNames.reserve(deviceCount) beyond max_size()
      throwExn .length_error
    else
      initLoop rt deviceCount.toNat 0 []

/-! ## The registry object and its queries -/

/-- The class `CudaGPUInfo`: its one data member. -/
structure CudaGPUInfo where
  /-- The member `gpuNames_`. -/
  gpuNames_ : List String
  deriving DecidableEq, Repr

/-- The call `v.at(n)` of `std::vector`. -/
def vector_at (v : List String) (n : Nat) : Eff String :=
  match v[n]? with
  | some s => pure s
  | none => throwExn .out_of_range

/-- The method `CudaGPUInfo::NumberGPUs`. -/
def CudaGPUInfo.NumberGPUs (self : CudaGPUInfo) : Int :=
  toCInt self.gpuNames_.length

/-- The method `CudaGPUInfo::CurrentGPUId`. -/
def CudaGPUInfo.CurrentGPUId (_self : CudaGPUInfo) (rt : Runtime) : Eff Int := do
  let (error_id, deviceID) ← call .cudaGetDevice rt.cudaGetDevice
  TC_CUDA_DRIVERAPI_ENFORCE rt error_id
  pure deviceID

/-- The method `CudaGPUInfo::GetGPUName`. -/
def CudaGPUInfo.GetGPUName (self : CudaGPUInfo) (rt : Runtime) (id : Int) : Eff String :=
  if id < 0 then do
    let k ← self.CurrentGPUId rt
    vector_at self.gpuNames_ (toSizeT k)
  else
    vector_at self.gpuNames_ (toSizeT id)

/-- The method `CudaGPUInfo::SynchronizeCurrentGPU`. -/
def CudaGPUInfo.SynchronizeCurrentGPU (_self : CudaGPUInfo) (rt : Runtime) : Eff Unit := do
  let error_id ← call .cudaDeviceSynchronize rt.cudaDeviceSynchronize
  TC_CUDA_DRIVERAPI_ENFORCE rt error_id

/-- The method `CudaGPUInfo::GetCudaDeviceStr`. -/
def CudaGPUInfo.GetCudaDeviceStr (self : CudaGPUInfo) (rt : Runtime) : Eff String :=
  if self.NumberGPUs = 0 then
    throwExn (.runtime_error "No GPUs found.")
  else do
    let k ← self.CurrentGPUId rt
    self.GetGPUName rt k

/-- The expression `GetGPUName(CurrentGPUId())`, evaluated on one registry. -/
def CudaGPUInfo.nameOfCurrent (self : CudaGPUInfo) (rt : Runtime) : Eff String := do
  let k ← self.CurrentGPUId rt
  self.GetGPUName rt k

/-! ## The thread-local accessor -/

/-- The two `static thread_local` variables of `CudaGPUInfo::GPUInfo`. -/
structure ThreadLocal where
  /-- The variable `pInfo`; `none` is the empty `unique_ptr`. -/
  pInfo : Option CudaGPUInfo
  /-- The variable `inited`. -/
  inited : Bool
  deriving DecidableEq, Repr

/-- The state of a thread before its first accessor call. -/
def ThreadLocal.initial : ThreadLocal := ⟨none, false⟩

/-- The expression `*pInfo`. -/
def deref (pInfo : Option CudaGPUInfo) : Outcome CudaGPUInfo :=
  match pInfo with
  | some info => .ok info
  | none => .undefined

/-- The static method `CudaGPUInfo::GPUInfo`, on the calling thread's
variables: the outcome (the object the returned reference designates), the
events, and the variables after the call.  When `init()` throws, the
assignment to `pInfo` and `inited = true` are not executed. -/
def GPUInfo (rt : Runtime) (tl : ThreadLocal) : Eff CudaGPUInfo × ThreadLocal :=
  if !tl.inited then
    match init rt with
    | ⟨.ok gpuNames, evs⟩ =>
      let tl1 : ThreadLocal := ⟨some ⟨gpuNames⟩, true⟩
      (⟨deref tl1.pInfo, evs ++ [.newCudaGPUInfo]⟩, tl1)
    | ⟨.throw e, evs⟩ => (⟨.throw e, evs⟩, tl)
    | ⟨.undefined, evs⟩ => (⟨.undefined, evs⟩, tl)
  else
    (⟨deref tl.pInfo, []⟩, tl)

/-- A sequence of accessor calls on one thread, the runtime behaving as the
k-th element of the list during the k-th call: the results of the calls, in
order, and the thread's variables at the end. -/
def runGPUInfo : List Runtime → ThreadLocal → List (Eff CudaGPUInfo) × ThreadLocal
  | [], tl => ([], tl)
  | rt :: rts, tl =>
    let r := GPUInfo rt tl
    let rest := runGPUInfo rts r.2
    (r.1 :: rest.1, rest.2)

/-! ## Concrete runtimes used as test inputs -/

/-- A runtime on a machine without a usable driver: every call returns
`cudaErrorInsufficientDriver` (35) and writes nothing. -/
def rtNoDriver : Runtime where
  cudaGetDeviceCount := (35, 0)
  cudaGetDeviceProperties := fun _ => (35, "")
  cudaGetDevice := (35, 0)
  cudaDeviceSynchronize := 35
  cudaGetErrorString := fun _ => "CUDA driver version is insufficient for CUDA runtime version"

/-- A runtime with two devices, "Tesla-A" and "Tesla-B", the current device
being device 1. -/
def rtTesla : Runtime where
  cudaGetDeviceCount := (0, 2)
  cudaGetDeviceProperties := fun i =>
    if i = 0 then (0, "Tesla-A") else if i = 1 then (0, "Tesla-B") else (101, "")
  cudaGetDevice := (0, 1)
  cudaDeviceSynchronize := 0
  cudaGetErrorString := fun _ => "invalid device ordinal"

/-- A runtime that counts two devices and fails the property query of
device 1 with `cudaErrorInvalidDevice` (101). -/
def rtBrokenProps : Runtime where
  cudaGetDeviceCount := (0, 2)
  cudaGetDeviceProperties := fun i => if i = 0 then (0, "Tesla-A") else (101, "")
  cudaGetDevice := (0, 0)
  cudaDeviceSynchronize := 0
  cudaGetErrorString := fun _ => "invalid device ordinal"

/-- A runtime whose device-count query fails with `cudaErrorUnknown` (999). -/
def rtCountFails : Runtime where
  cudaGetDeviceCount := (999, 0)
  cudaGetDeviceProperties := fun _ => (999, "")
  cudaGetDevice := (999, 0)
  cudaDeviceSynchronize := 999
  cudaGetErrorString := fun _ => "unknown error"

/-- A runtime whose current-device query fails with code 35 and whose
diagnostic text for every code is the text "No GPUs found.". -/
def rtSameText : Runtime where
  cudaGetDeviceCount := (35, 0)
  cudaGetDeviceProperties := fun _ => (35, "")
  cudaGetDevice := (35, 0)
  cudaDeviceSynchronize := 35
  cudaGetErrorString := fun _ => "No GPUs found."

/-- The registry with the two names "Tesla-A", "Tesla-B". -/
def regTesla : CudaGPUInfo := ⟨["Tesla-A", "Tesla-B"]⟩

/-- The call returned normally. -/
def Outcome.isOk {α : Type} : Outcome α → Bool
  | .ok _ => true
  | _ => false

/-- The accessor call ran an enumeration pass (it issued the device-count
query) and the pass succeeded (the call returned normally). -/
def successfulPass (r : Eff CudaGPUInfo) : Bool :=
  r.out.isOk && decide (Event.cudaGetDeviceCount ∈ r.events)

/-! ## Basic facts about effects and conversions -/

theorem Eff.bind_call {α β : Type} (ev : Event) (a : α) (f : α → Eff β) :
    (call ev a >>= f) = ⟨(f a).out, ev :: (f a).events⟩ := rfl

theorem Eff.bind_pure {α β : Type} (a : α) (f : α → Eff β) :
    ((pure a : Eff α) >>= f) = f a := rfl

theorem Eff.bind_throw {α β : Type} (e : Exn) (f : α → Eff β) :
    ((throwExn e : Eff α) >>= f) = throwExn e := rfl

theorem enforce_zero (rt : Runtime) : TC_CUDA_DRIVERAPI_ENFORCE rt 0 = pure () := rfl

theorem enforce_ne_zero (rt : Runtime) (c : Int) (h : c ≠ 0) :
    TC_CUDA_DRIVERAPI_ENFORCE rt c = throwExn (.runtime_error (rt.cudaGetErrorString c)) := by
  simp [TC_CUDA_DRIVERAPI_ENFORCE, h]

theorem toSizeT_of_nat (n : Nat) (h : n < 18446744073709551616) : toSizeT (n : Int) = n := by
  unfold toSizeT
  rw [Int.emod_eq_of_lt (by omega) (by omega)]
  simp

theorem toSizeT_of_neg (k : Int) (hk : isInt k) (hneg : k < 0) :
    18446744071562067968 ≤ toSizeT k := by
  unfold isInt INT_MIN INT_MAX at hk
  unfold toSizeT
  omega

theorem toCInt_of_isInt (n : Nat) (h : isInt (n : Int)) : toCInt n = n := by
  unfold isInt INT_MIN INT_MAX at h
  unfold toCInt INT_MAX
  have h1 : (n : Int) % 4294967296 = n := Int.emod_eq_of_lt (by omega) (by omega)
  simp only [h1]
  rw [if_pos h.2]

theorem vector_at_lt (v : List String) (n : Nat) (h : n < v.length) :
    vector_at v n = pure (v.get ⟨n, h⟩) := by
  unfold vector_at
  rw [List.getElem?_eq_getElem h]
  rfl

theorem vector_at_ge (v : List String) (n : Nat) (h : v.length ≤ n) :
    vector_at v n = throwExn .out_of_range := by
  unfold vector_at
  rw [List.getElem?_eq_none h]

/-! ## The enumeration loop -/

theorem initLoop_succ (rt : Runtime) (n : Nat) (i : Int) (acc : List String) :
    initLoop rt (n + 1) i acc =
      if (rt.cudaGetDeviceProperties i).1 ≠ 0 then
        ⟨.throw (.runtime_error (rt.cudaGetErrorString (rt.cudaGetDeviceProperties i).1)),
          [.cudaGetDeviceProperties i]⟩
      else
        ⟨(initLoop rt n (i + 1) (acc ++ [(rt.cudaGetDeviceProperties i).2])).out,
          .cudaGetDeviceProperties i ::
            (initLoop rt n (i + 1) (acc ++ [(rt.cudaGetDeviceProperties i).2])).events⟩ := by
  rw [initLoop, Eff.bind_call]
  by_cases h : (rt.cudaGetDeviceProperties i).1 = 0
  · simp only [h, enforce_zero, Eff.bind_pure, ne_eq, not_true_eq_false, if_false]
  · simp only [enforce_ne_zero rt _ h, Eff.bind_throw, ne_eq, h, not_false_eq_true, if_true]
    rfl

/-- When every property query of the remaining ordinals succeeds, the loop
returns the names in ordinal order after those already collected. -/
theorem initLoop_ok (rt : Runtime) (names : List String) :
    ∀ (i : Int) (acc : List String),
      (∀ (j : Nat) (h : j < names.length),
        rt.cudaGetDeviceProperties (i + j) = (0, names.get ⟨j, h⟩)) →
      (initLoop rt names.length i acc).out = .ok (acc ++ names) := by
  induction names with
  | nil => intro i acc _; simp [initLoop]; rfl
  | cons x xs ih =>
    intro i acc h
    have h0 := h 0 (by simp)
    simp only [Nat.cast_zero, add_zero, List.get_eq_getElem, List.getElem_cons_zero] at h0
    rw [List.length_cons, initLoop_succ, h0]
    simp only [ne_eq, not_true_eq_false, if_false]
    rw [ih (i + 1) (acc ++ [x])]
    · simp
    · intro j hj
      have := h (j + 1) (by simp; omega)
      simp only [List.get_eq_getElem, List.getElem_cons_succ, Nat.cast_add, Nat.cast_one] at this
      have e : i + 1 + (j : Int) = i + ((j : Int) + 1) := by ring
      rw [e, this]
      rfl

/-- The loop throws at the lowest ordinal whose property query fails. -/
theorem initLoop_throw (rt : Runtime) :
    ∀ (k n : Nat) (i : Int) (acc : List String), k < n →
      (∀ j : Nat, j < k → (rt.cudaGetDeviceProperties (i + j)).1 = 0) →
      (rt.cudaGetDeviceProperties (i + k)).1 ≠ 0 →
      (initLoop rt n i acc).out =
        .throw (.runtime_error (rt.cudaGetErrorString (rt.cudaGetDeviceProperties (i + k)).1)) := by
  intro k
  induction k with
  | zero =>
    intro n i acc hn _ hk
    obtain ⟨m, rfl⟩ : ∃ m, n = m + 1 := ⟨n - 1, by omega⟩
    simp only [Nat.cast_zero, add_zero] at hk ⊢
    rw [initLoop_succ, if_pos hk]
  | succ k ih =>
    intro n i acc hn hlow hk
    obtain ⟨m, rfl⟩ : ∃ m, n = m + 1 := ⟨n - 1, by omega⟩
    have h0 := hlow 0 (by omega)
    simp only [Nat.cast_zero, add_zero] at h0
    rw [initLoop_succ]
    simp only [ne_eq, h0, not_true_eq_false, if_false]
    have e : i + ((k + 1 : Nat) : Int) = (i + 1) + (k : Int) := by push_cast; ring
    rw [e] at hk ⊢
    apply ih m (i + 1) _ (by omega) _ hk
    intro j hj
    have := hlow (j + 1) (by omega)
    have e2 : i + ((j + 1 : Nat) : Int) = (i + 1) + (j : Int) := by push_cast; ring
    rw [e2] at this
    exact this

/-- What `init` does once the count query has returned a code that is neither
35 nor 30. -/
theorem init_not_absent (rt : Runtime) (h35 : rt.cudaGetDeviceCount.1 ≠ 35)
    (h30 : rt.cudaGetDeviceCount.1 ≠ 30) :
    (init rt).out =
      if rt.cudaGetDeviceCount.1 ≠ 0 then
        .throw (.runtime_error (rt.cudaGetErrorString rt.cudaGetDeviceCount.1))
      else if rt.cudaGetDeviceCount.2 = 0 then .ok []
      else if vector_max_size < toSizeT rt.cudaGetDeviceCount.2 then .throw .length_error
      else (initLoop rt rt.cudaGetDeviceCount.2.toNat 0 []).out := by
  unfold init
  rw [Eff.bind_call]
  simp only [h35, h30, or_self, if_false]
  by_cases h : rt.cudaGetDeviceCount.1 = 0
  · simp only [h, enforce_zero, Eff.bind_pure, ne_eq, not_true_eq_false, if_false]
    split_ifs <;> rfl
  · simp only [enforce_ne_zero rt _ h, Eff.bind_throw, ne_eq, h, not_false_eq_true, if_true]
    rfl

/-- What `init` does when the count query returns 35 or 30. -/
theorem init_absent (rt : Runtime)
    (h : rt.cudaGetDeviceCount.1 = 35 ∨ rt.cudaGetDeviceCount.1 = 30) :
    init rt = ⟨.ok [], [.cudaGetDeviceCount, .logInfo "Cuda driver not available.\n"]⟩ := by
  unfold init
  rw [Eff.bind_call]
  simp only [h, if_true]
  rfl

/-- The accessor on a thread that is not yet initialised, when `init`
returns. -/
theorem GPUInfo_fresh_ok (rt : Runtime) (tl : ThreadLocal) (names : List String)
    (hi : tl.inited = false) (h : (init rt).out = .ok names) :
    GPUInfo rt tl =
      (⟨.ok ⟨names⟩, (init rt).events ++ [.newCudaGPUInfo]⟩, ⟨some ⟨names⟩, true⟩) := by
  unfold GPUInfo
  rw [hi]
  rcases hr : init rt with ⟨o, evs⟩
  rw [hr] at h
  simp only at h
  subst h
  rfl

/-- The accessor on a thread that is not yet initialised, when `init`
throws. -/
theorem GPUInfo_fresh_throw (rt : Runtime) (tl : ThreadLocal) (e : Exn)
    (hi : tl.inited = false) (h : (init rt).out = .throw e) :
    GPUInfo rt tl = (⟨.throw e, (init rt).events⟩, tl) := by
  unfold GPUInfo
  rw [hi]
  rcases hr : init rt with ⟨o, evs⟩
  rw [hr] at h
  simp only at h
  subst h
  rfl

/-- The accessor on a thread that is already initialised. -/
theorem GPUInfo_inited (rt : Runtime) (tl : ThreadLocal) (hi : tl.inited = true) :
    GPUInfo rt tl = (⟨deref tl.pInfo, []⟩, tl) := by
  unfold GPUInfo
  rw [hi]
  rfl

/-- The result of `init` when the count query succeeds with the count
`names.length` and every property query below it succeeds with these names. -/
theorem init_ok (rt : Runtime) (names : List String)
    (hN : isInt (names.length : Int))
    (hcount : rt.cudaGetDeviceCount = (0, (names.length : Int)))
    (hprops : ∀ (i : Nat) (h : i < names.length),
      rt.cudaGetDeviceProperties (i : Int) = (0, names.get ⟨i, h⟩)) :
    (init rt).out = .ok names := by
  have hlen : names.length ≤ 2147483647 := by
    have := hN.2
    unfold INT_MAX at this
    omega
  rw [init_not_absent rt (by rw [hcount]; simp) (by rw [hcount]; simp)]
  simp only [hcount, ne_eq, not_true_eq_false, if_false]
  by_cases h0 : names.length = 0
  · have : names = [] := List.length_eq_zero.mp h0
    subst this
    simp
  · have hne : ¬ ((names.length : Int) = 0) := by omega
    rw [if_neg hne, toSizeT_of_nat _ (by omega)]
    have hmax : ¬ (vector_max_size < names.length) := by
      unfold vector_max_size
      omega
    rw [if_neg hmax, Int.toNat_ofNat]
    have := initLoop_ok rt names 0 [] (by
      intro j hj
      rw [zero_add]
      exact hprops j hj)
    simpa using this

/-! ## The claims -/

/-- C1: when the device-count query succeeds with count N and the property
query succeeds for every ordinal below N with names n_0 .. n_{N-1},
construction (`init`, and the accessor on a fresh thread) yields a registry
with `NumberGPUs() == N`, `GetGPUName(i) == n_i` for every `0 <= i < N`, in
ordinal order, and `GetGPUName(i)` throwing `std::out_of_range` for every
`int` value `i >= N`; for N = 0 the registry is empty and nothing is thrown. -/
theorem C1_enumeration_in_order (rt : Runtime) (names : List String)
    (hN : isInt (names.length : Int))
    (hcount : rt.cudaGetDeviceCount = (0, (names.length : Int)))
    (hprops : ∀ (i : Nat) (h : i < names.length),
      rt.cudaGetDeviceProperties (i : Int) = (0, names.get ⟨i, h⟩)) :
    (init rt).out = .ok names ∧
    ∃ reg : CudaGPUInfo, (GPUInfo rt ThreadLocal.initial).1.out = .ok reg ∧
      reg.gpuNames_ = names ∧
      reg.NumberGPUs = (names.length : Int) ∧
      (∀ (q : Runtime) (i : Nat) (h : i < names.length),
        reg.GetGPUName q (i : Int) = ⟨.ok (names.get ⟨i, h⟩), []⟩) ∧
      (∀ (q : Runtime) (i : Int), isInt i → (names.length : Int) ≤ i →
        reg.GetGPUName q i = ⟨.throw .out_of_range, []⟩) := by
  have hinit := init_ok rt names hN hcount hprops
  have hlen : names.length ≤ 2147483647 := by
    have := hN.2
    unfold INT_MAX at this
    omega
  refine ⟨hinit, ⟨names⟩, ?_, rfl, ?_, ?_, ?_⟩
  · rw [GPUInfo_fresh_ok rt _ names rfl hinit]
  · exact toCInt_of_isInt _ hN
  · intro q i h
    unfold CudaGPUInfo.GetGPUName
    rw [if_neg (by omega), toSizeT_of_nat _ (by omega), vector_at_lt _ _ h]
    rfl
  · intro q i hi hge
    have hi2 := hi.2
    unfold INT_MAX at hi2
    obtain ⟨m, rfl⟩ : ∃ m : Nat, i = (m : Int) := ⟨i.toNat, by omega⟩
    unfold CudaGPUInfo.GetGPUName
    rw [if_neg (by omega), toSizeT_of_nat _ (by omega), vector_at_ge _ _ (by simp only; omega)]
    rfl

/-- Witness of C1 on the runtime with the two devices "Tesla-A", "Tesla-B":
the registry has two entries, ids 0 and 1 give the two names in order and
id 2 is out of range. -/
theorem C1_enumeration_in_order_witness :
    (init rtTesla).out = .ok ["Tesla-A", "Tesla-B"] ∧
    (GPUInfo rtTesla ThreadLocal.initial).1.out = .ok regTesla ∧
    regTesla.NumberGPUs = 2 ∧
    regTesla.GetGPUName rtNoDriver 0 = ⟨.ok "Tesla-A", []⟩ ∧
    regTesla.GetGPUName rtNoDriver 1 = ⟨.ok "Tesla-B", []⟩ ∧
    regTesla.GetGPUName rtNoDriver 2 = ⟨.throw .out_of_range, []⟩ := by
  obtain ⟨h1, reg, h2, h3, h4, h5, h6⟩ :=
    C1_enumeration_in_order rtTesla ["Tesla-A", "Tesla-B"] (by decide) rfl (by
      intro i h
      match i, h with
      | 0, _ => rfl
      | 1, _ => rfl)
  have hreg : reg = regTesla := by
    cases reg
    simp only at h3
    subst h3
    rfl
  subst hreg
  exact ⟨h1, h2, h4, h5 rtNoDriver 0 (by decide), h5 rtNoDriver 1 (by decide),
    h6 rtNoDriver 2 (by decide) (by decide)⟩

/-- C2: when the device-count query returns one of the two driver-absence
codes 35 and 30, construction does not fail: `init` returns the empty
sequence after the count query and the log line only (no property query is
issued, whatever count the query wrote), and the registry the accessor
builds has `NumberGPUs() == 0`. -/
theorem C2_driver_absent_is_empty (rt : Runtime)
    (h : rt.cudaGetDeviceCount.1 = 35 ∨ rt.cudaGetDeviceCount.1 = 30) :
    init rt = ⟨.ok [], [.cudaGetDeviceCount, .logInfo "Cuda driver not available.\n"]⟩ ∧
    ∃ reg : CudaGPUInfo, (GPUInfo rt ThreadLocal.initial).1.out = .ok reg ∧
      reg.gpuNames_ = [] ∧ reg.NumberGPUs = 0 := by
  have hinit := init_absent rt h
  refine ⟨hinit, ⟨[]⟩, ?_, rfl, rfl⟩
  rw [GPUInfo_fresh_ok rt _ [] rfl (by rw [hinit])]

/-- Witness of C2 on the runtime without a driver (code 35). -/
theorem C2_driver_absent_is_empty_witness :
    init rtNoDriver = ⟨.ok [], [.cudaGetDeviceCount, .logInfo "Cuda driver not available.\n"]⟩ ∧
    ∃ reg : CudaGPUInfo, (GPUInfo rtNoDriver ThreadLocal.initial).1.out = .ok reg ∧
      reg.gpuNames_ = [] ∧ reg.NumberGPUs = 0 :=
  C2_driver_absent_is_empty rtNoDriver (Or.inl rfl)

/-- C4: `init` throws `std::runtime_error` carrying `cudaGetErrorString` of
the failing call's code (a) when the device-count query returns a code other
than 0, 30 and 35, and (b) when the count query succeeds with an `int` count
N and the property query of some ordinal `i < N` returns a non-zero code
(30 and 35 included): the error is then that of the lowest failing ordinal
`k`.  In both cases the accessor on a fresh thread throws the same exception
and stores nothing, so no partial list of names is returned. -/
theorem C4_enumeration_failure (rt : Runtime) :
    (rt.cudaGetDeviceCount.1 ≠ 0 → rt.cudaGetDeviceCount.1 ≠ 30 →
      rt.cudaGetDeviceCount.1 ≠ 35 →
      (init rt).out =
        .throw (.runtime_error (rt.cudaGetErrorString rt.cudaGetDeviceCount.1)) ∧
      (GPUInfo rt ThreadLocal.initial).1.out =
        .throw (.runtime_error (rt.cudaGetErrorString rt.cudaGetDeviceCount.1)) ∧
      (GPUInfo rt ThreadLocal.initial).2 = ThreadLocal.initial) ∧
    (∀ i : Nat, rt.cudaGetDeviceCount.1 = 0 → isInt rt.cudaGetDeviceCount.2 →
      (i : Int) < rt.cudaGetDeviceCount.2 → (rt.cudaGetDeviceProperties i).1 ≠ 0 →
      ∃ k : Nat, k ≤ i ∧ (rt.cudaGetDeviceProperties k).1 ≠ 0 ∧
        (∀ j : Nat, j < k → (rt.cudaGetDeviceProperties j).1 = 0) ∧
        (init rt).out =
          .throw (.runtime_error (rt.cudaGetErrorString (rt.cudaGetDeviceProperties k).1)) ∧
        (GPUInfo rt ThreadLocal.initial).1.out =
          .throw (.runtime_error (rt.cudaGetErrorString (rt.cudaGetDeviceProperties k).1)) ∧
        (GPUInfo rt ThreadLocal.initial).2 = ThreadLocal.initial) := by
  constructor
  · intro h0 h30 h35
    have hinit : (init rt).out =
        .throw (.runtime_error (rt.cudaGetErrorString rt.cudaGetDeviceCount.1)) := by
      rw [init_not_absent rt h35 h30, if_pos h0]
    refine ⟨hinit, ?_, ?_⟩ <;> rw [GPUInfo_fresh_throw rt _ _ rfl hinit]
  · intro i hst hN hi hfail
    have hex : ∃ m : Nat, (rt.cudaGetDeviceProperties m).1 ≠ 0 := ⟨i, hfail⟩
    have hk : (rt.cudaGetDeviceProperties (Nat.find hex : Nat)).1 ≠ 0 := Nat.find_spec hex
    have hle : Nat.find hex ≤ i := Nat.find_min' hex hfail
    have hlow : ∀ j : Nat, j < Nat.find hex → (rt.cudaGetDeviceProperties j).1 = 0 := by
      intro j hj
      exact not_not.mp (Nat.find_min hex hj)
    have hN2 := hN.2
    unfold INT_MAX at hN2
    have hinit : (init rt).out = .throw (.runtime_error
        (rt.cudaGetErrorString (rt.cudaGetDeviceProperties (Nat.find hex : Nat)).1)) := by
      rw [init_not_absent rt (by rw [hst]; decide) (by rw [hst]; decide)]
      rw [if_neg (by simp [hst]), if_neg (by omega)]
      obtain ⟨n, hn⟩ : ∃ n : Nat, rt.cudaGetDeviceCount.2 = (n : Int) :=
        ⟨rt.cudaGetDeviceCount.2.toNat, by omega⟩
      rw [hn, toSizeT_of_nat _ (by omega)]
      have hmax : ¬ (vector_max_size < n) := by
        unfold vector_max_size
        omega
      rw [if_neg hmax, Int.toNat_ofNat]
      have := initLoop_throw rt (Nat.find hex) n 0 [] (by omega)
        (by intro j hj; rw [zero_add]; exact hlow j hj) (by rw [zero_add]; exact hk)
      rw [zero_add] at this
      exact this
    refine ⟨Nat.find hex, hle, hk, hlow, hinit, ?_, ?_⟩ <;>
      rw [GPUInfo_fresh_throw rt _ _ rfl hinit]

/-- Witness of C4: a count query failing with code 999, and a property query
failing with code 101 at ordinal 1 of 2. -/
theorem C4_enumeration_failure_witness :
    ((init rtCountFails).out = .throw (.runtime_error "unknown error") ∧
      (GPUInfo rtCountFails ThreadLocal.initial).1.out =
        .throw (.runtime_error "unknown error") ∧
      (GPUInfo rtCountFails ThreadLocal.initial).2 = ThreadLocal.initial) ∧
    (∃ k : Nat, k ≤ 1 ∧ (rtBrokenProps.cudaGetDeviceProperties k).1 ≠ 0 ∧
        (∀ j : Nat, j < k → (rtBrokenProps.cudaGetDeviceProperties j).1 = 0) ∧
        (init rtBrokenProps).out = .throw (.runtime_error
          (rtBrokenProps.cudaGetErrorString (rtBrokenProps.cudaGetDeviceProperties k).1)) ∧
        (GPUInfo rtBrokenProps ThreadLocal.initial).1.out = .throw (.runtime_error
          (rtBrokenProps.cudaGetErrorString (rtBrokenProps.cudaGetDeviceProperties k).1)) ∧
        (GPUInfo rtBrokenProps ThreadLocal.initial).2 = ThreadLocal.initial) :=
  ⟨(C4_enumeration_failure rtCountFails).1 (by decide) (by decide) (by decide),
   (C4_enumeration_failure rtBrokenProps).2 1 rfl (by decide) (by decide) (by decide)⟩

/-! ## Name lookup -/

theorem CurrentGPUId_eq (reg : CudaGPUInfo) (rt : Runtime) :
    reg.CurrentGPUId rt =
      if rt.cudaGetDevice.1 ≠ 0 then
        ⟨.throw (.runtime_error (rt.cudaGetErrorString rt.cudaGetDevice.1)), [.cudaGetDevice]⟩
      else ⟨.ok rt.cudaGetDevice.2, [.cudaGetDevice]⟩ := by
  unfold CudaGPUInfo.CurrentGPUId
  rw [Eff.bind_call]
  by_cases h : rt.cudaGetDevice.1 = 0
  · simp only [h, enforce_zero, Eff.bind_pure, ne_eq, not_true_eq_false, if_false]
    rfl
  · simp only [enforce_ne_zero rt _ h, Eff.bind_throw, ne_eq, h, not_false_eq_true, if_true]
    rfl

theorem GetGPUName_neg (reg : CudaGPUInfo) (rt : Runtime) (id : Int) (hid : id < 0) :
    reg.GetGPUName rt id =
      if rt.cudaGetDevice.1 ≠ 0 then
        ⟨.throw (.runtime_error (rt.cudaGetErrorString rt.cudaGetDevice.1)), [.cudaGetDevice]⟩
      else
        ⟨(vector_at reg.gpuNames_ (toSizeT rt.cudaGetDevice.2)).out,
          .cudaGetDevice :: (vector_at reg.gpuNames_ (toSizeT rt.cudaGetDevice.2)).events⟩ := by
  unfold CudaGPUInfo.GetGPUName
  rw [if_pos hid, CurrentGPUId_eq]
  split_ifs <;> rfl

theorem GetGPUName_nonneg (reg : CudaGPUInfo) (rt : Runtime) (id : Int) (hid : 0 ≤ id) :
    reg.GetGPUName rt id = vector_at reg.gpuNames_ (toSizeT id) := by
  unfold CudaGPUInfo.GetGPUName
  rw [if_neg (by omega)]

theorem nameOfCurrent_eq (reg : CudaGPUInfo) (rt : Runtime) :
    reg.nameOfCurrent rt =
      if rt.cudaGetDevice.1 ≠ 0 then
        ⟨.throw (.runtime_error (rt.cudaGetErrorString rt.cudaGetDevice.1)), [.cudaGetDevice]⟩
      else
        ⟨(reg.GetGPUName rt rt.cudaGetDevice.2).out,
          .cudaGetDevice :: (reg.GetGPUName rt rt.cudaGetDevice.2).events⟩ := by
  unfold CudaGPUInfo.nameOfCurrent
  rw [CurrentGPUId_eq]
  split_ifs <;> rfl

/-- C3, as amended: on the registry built when the device-count query
returned 35 or 30, `GetGPUName(id)` throws `std::out_of_range` for every
`id >= 0` (without any runtime call) and for every negative `id` when the
current-device query succeeds, whatever device id it reports; when the
current-device query returns a non-zero code, `GetGPUName` of a negative id
throws `std::runtime_error` with that code's diagnostic text instead. -/
theorem C3_empty_registry_lookup (rt : Runtime) (reg : CudaGPUInfo)
    (h : rt.cudaGetDeviceCount.1 = 35 ∨ rt.cudaGetDeviceCount.1 = 30)
    (hreg : (GPUInfo rt ThreadLocal.initial).1.out = .ok reg) (q : Runtime) (id : Int) :
    (0 ≤ id → reg.GetGPUName q id = ⟨.throw .out_of_range, []⟩) ∧
    (id < 0 → q.cudaGetDevice.1 = 0 →
      reg.GetGPUName q id = ⟨.throw .out_of_range, [.cudaGetDevice]⟩) ∧
    (id < 0 → q.cudaGetDevice.1 ≠ 0 →
      reg.GetGPUName q id =
        ⟨.throw (.runtime_error (q.cudaGetErrorString q.cudaGetDevice.1)), [.cudaGetDevice]⟩) := by
  have hempty : reg.gpuNames_ = [] := by
    rw [GPUInfo_fresh_ok rt _ [] rfl (by rw [init_absent rt h])] at hreg
    simp only [Outcome.ok.injEq] at hreg
    rw [← hreg]
  refine ⟨?_, ?_, ?_⟩
  · intro hid
    rw [GetGPUName_nonneg reg q id hid, hempty, vector_at_ge _ _ (by simp)]
    rfl
  · intro hid hst
    rw [GetGPUName_neg reg q id hid, if_neg (by simp [hst]), hempty,
      vector_at_ge _ _ (by simp)]
    rfl
  · intro hid hst
    rw [GetGPUName_neg reg q id hid, if_pos hst]

/-- Witness of C3 (amended): the registry built without a driver, queried
with id 5, with id -1 while the current-device query succeeds, and with id -1
while it fails with code 35. -/
theorem C3_empty_registry_lookup_witness :
    (CudaGPUInfo.mk []).GetGPUName rtTesla 5 = ⟨.throw .out_of_range, []⟩ ∧
    (CudaGPUInfo.mk []).GetGPUName rtTesla (-1) = ⟨.throw .out_of_range, [.cudaGetDevice]⟩ ∧
    (CudaGPUInfo.mk []).GetGPUName rtNoDriver (-1) =
      ⟨.throw (.runtime_error "CUDA driver version is insufficient for CUDA runtime version"),
        [.cudaGetDevice]⟩ :=
  ⟨(C3_empty_registry_lookup rtNoDriver ⟨[]⟩ (Or.inl rfl) rfl rtTesla 5).1 (by decide),
   (C3_empty_registry_lookup rtNoDriver ⟨[]⟩ (Or.inl rfl) rfl rtTesla (-1)).2.1 (by decide) rfl,
   (C3_empty_registry_lookup rtNoDriver ⟨[]⟩ (Or.inl rfl) rfl rtNoDriver (-1)).2.2
     (by decide) (by decide)⟩

/-- C3, counterexample: the runtime without a driver makes the accessor build
the empty registry, and on it `GetGPUName(-1)` throws `std::runtime_error`
(the current-device query returns code 35), not `std::out_of_range`. -/
theorem C3_counterexample :
    (GPUInfo rtNoDriver ThreadLocal.initial).1.out = .ok ⟨[]⟩ ∧
    ((CudaGPUInfo.mk []).GetGPUName rtNoDriver (-1)).out =
      .throw (.runtime_error "CUDA driver version is insufficient for CUDA runtime version") ∧
    ¬ (∀ (q : Runtime) (id : Int),
        ((CudaGPUInfo.mk []).GetGPUName q id).out = .throw .out_of_range) := by
  refine ⟨rfl, rfl, ?_⟩
  intro hall
  have := hall rtNoDriver (-1)
  exact absurd this (by decide)

/-- C7: for every registry (a `std::vector` never holds more than
`max_size()` elements), every negative id and every outcome of the
current-device query (reporting an `int`), `GetGPUName(id)` ends as
`GetGPUName(CurrentGPUId())` does: with the `std::runtime_error` of the
query when it fails, with the name at `k` when it reports `k` in
`[0, size)`, and with `std::out_of_range` when it reports `k` outside
`[0, size)`.  The id is the one the runtime reports at the time of the
call. -/
theorem C7_negative_id_is_current (reg : CudaGPUInfo) (rt : Runtime) (id : Int)
    (hid : id < 0) (hsize : reg.gpuNames_.length ≤ vector_max_size)
    (hk : isInt rt.cudaGetDevice.2) :
    (reg.GetGPUName rt id).out = (reg.nameOfCurrent rt).out ∧
    (rt.cudaGetDevice.1 ≠ 0 →
      (reg.GetGPUName rt id).out =
        .throw (.runtime_error (rt.cudaGetErrorString rt.cudaGetDevice.1))) ∧
    (rt.cudaGetDevice.1 = 0 → ∀ (k : Nat) (h : k < reg.gpuNames_.length),
      rt.cudaGetDevice.2 = (k : Int) →
      (reg.GetGPUName rt id).out = .ok (reg.gpuNames_.get ⟨k, h⟩)) ∧
    (rt.cudaGetDevice.1 = 0 →
      (rt.cudaGetDevice.2 < 0 ∨ (reg.gpuNames_.length : Int) ≤ rt.cudaGetDevice.2) →
      (reg.GetGPUName rt id).out = .throw .out_of_range) := by
  have hk1 := hk.1
  have hk2 := hk.2
  unfold INT_MAX at hk2
  unfold INT_MIN at hk1
  unfold vector_max_size at hsize
  refine ⟨?_, ?_, ?_, ?_⟩
  · rw [GetGPUName_neg reg rt id hid, nameOfCurrent_eq]
    by_cases hst : rt.cudaGetDevice.1 = 0
    · simp only [hst, ne_eq, not_true_eq_false, if_false]
      by_cases hneg : rt.cudaGetDevice.2 < 0
      · rw [GetGPUName_neg reg rt _ hneg]
        simp only [hst, ne_eq, not_true_eq_false, if_false]
      · rw [GetGPUName_nonneg reg rt _ (by omega)]
    · simp only [ne_eq, hst, not_false_eq_true, if_true]
  · intro hst
    rw [GetGPUName_neg reg rt id hid, if_pos hst]
  · intro hst k h hkeq
    rw [GetGPUName_neg reg rt id hid, if_neg (by simp [hst]), hkeq,
      toSizeT_of_nat _ (by omega), vector_at_lt _ _ h]
    rfl
  · intro hst hout
    rw [GetGPUName_neg reg rt id hid, if_neg (by simp [hst])]
    rcases hout with hneg | hge
    · have := toSizeT_of_neg _ hk hneg
      rw [vector_at_ge _ _ (by omega)]
      rfl
    · obtain ⟨m, hm⟩ : ∃ m : Nat, rt.cudaGetDevice.2 = (m : Int) :=
        ⟨rt.cudaGetDevice.2.toNat, by omega⟩
      rw [hm, toSizeT_of_nat _ (by omega), vector_at_ge _ _ (by omega)]
      rfl

/-- Witness of C7, id -1: with the two Tesla devices and current device 1 the
name is "Tesla-B"; with a failing current-device query the call throws the
runtime's error; with one device and current device 1 it throws
`std::out_of_range`. -/
theorem C7_negative_id_is_current_witness :
    (regTesla.GetGPUName rtTesla (-1)).out = (regTesla.nameOfCurrent rtTesla).out ∧
    (regTesla.GetGPUName rtTesla (-1)).out = .ok "Tesla-B" ∧
    (regTesla.GetGPUName rtNoDriver (-1)).out =
      .throw (.runtime_error "CUDA driver version is insufficient for CUDA runtime version") ∧
    ((CudaGPUInfo.mk ["Tesla-A"]).GetGPUName rtTesla (-1)).out = .throw .out_of_range :=
  ⟨(C7_negative_id_is_current regTesla rtTesla (-1) (by decide) (by decide) (by decide)).1,
   (C7_negative_id_is_current regTesla rtTesla (-1) (by decide) (by decide) (by decide)).2.2.1
     rfl 1 (by decide) rfl,
   (C7_negative_id_is_current regTesla rtNoDriver (-1) (by decide) (by decide) (by decide)).2.1
     (by decide),
   (C7_negative_id_is_current ⟨["Tesla-A"]⟩ rtTesla (-1) (by decide) (by decide)
     (by decide)).2.2.2 rfl (Or.inr (by decide))⟩

/-- C8: for every registry with `NumberGPUs() > 0` and every outcome of the
current-device query, `GetCudaDeviceStr()` ends as `GetGPUName(CurrentGPUId())`
does, failures and runtime calls included. -/
theorem C8_device_str_is_current_name (reg : CudaGPUInfo) (rt : Runtime)
    (h : 0 < reg.NumberGPUs) :
    reg.GetCudaDeviceStr rt = reg.nameOfCurrent rt := by
  unfold CudaGPUInfo.GetCudaDeviceStr CudaGPUInfo.nameOfCurrent
  rw [if_neg (by omega)]

/-- Witness of C8: with the devices "Tesla-A", "Tesla-B" and current device
1, both `GetCudaDeviceStr()` and `GetGPUName(CurrentGPUId())` return
"Tesla-B". -/
theorem C8_device_str_is_current_name_witness :
    0 < regTesla.NumberGPUs ∧
    regTesla.GetCudaDeviceStr rtTesla = regTesla.nameOfCurrent rtTesla ∧
    (regTesla.GetCudaDeviceStr rtTesla).out = .ok "Tesla-B" ∧
    (regTesla.nameOfCurrent rtTesla).out = .ok "Tesla-B" :=
  ⟨by decide, C8_device_str_is_current_name regTesla rtTesla (by decide), rfl, rfl⟩

/-- C9, as amended: for every registry with `NumberGPUs() == 0`,
`GetCudaDeviceStr()` throws `std::runtime_error("No GPUs found.")` before any
runtime call is issued, so also when the current-device query would fail.
That exception differs from `std::out_of_range`; it has the same type,
`std::runtime_error`, as the exception a failing current-device query
raises, and equals it exactly when the runtime's diagnostic text for the
failing code is "No GPUs found.". -/
theorem C9_no_devices_error (reg : CudaGPUInfo) (rt : Runtime)
    (h : reg.NumberGPUs = 0) :
    reg.GetCudaDeviceStr rt = ⟨.throw (.runtime_error "No GPUs found."), []⟩ ∧
    Exn.runtime_error "No GPUs found." ≠ Exn.out_of_range ∧
    (∀ e : Exn, (reg.CurrentGPUId rt).out = .throw e →
      e.isRuntimeError = true ∧
      (e = .runtime_error "No GPUs found." ↔
        rt.cudaGetErrorString rt.cudaGetDevice.1 = "No GPUs found.")) := by
  refine ⟨?_, by decide, ?_⟩
  · unfold CudaGPUInfo.GetCudaDeviceStr
    rw [if_pos h]
    rfl
  · intro e he
    rw [CurrentGPUId_eq] at he
    by_cases hst : rt.cudaGetDevice.1 = 0
    · simp [hst] at he
    · simp only [ne_eq, hst, not_false_eq_true, if_true, Outcome.throw.injEq] at he
      subst he
      simp [Exn.isRuntimeError]

/-- Witness of C9 (amended): the empty registry under the runtime without a
driver, whose current-device query fails with CUDA's own text. -/
theorem C9_no_devices_error_witness :
    (CudaGPUInfo.mk []).GetCudaDeviceStr rtNoDriver =
      ⟨.throw (.runtime_error "No GPUs found."), []⟩ ∧
    Exn.runtime_error "No GPUs found." ≠ Exn.out_of_range ∧
    (Exn.runtime_error
        "CUDA driver version is insufficient for CUDA runtime version").isRuntimeError = true ∧
    (Exn.runtime_error "CUDA driver version is insufficient for CUDA runtime version" =
        .runtime_error "No GPUs found." ↔
      rtNoDriver.cudaGetErrorString rtNoDriver.cudaGetDevice.1 = "No GPUs found.") :=
  ⟨(C9_no_devices_error ⟨[]⟩ rtNoDriver rfl).1,
   (C9_no_devices_error ⟨[]⟩ rtNoDriver rfl).2.1,
   ((C9_no_devices_error ⟨[]⟩ rtNoDriver rfl).2.2 _ rfl).1,
   ((C9_no_devices_error ⟨[]⟩ rtNoDriver rfl).2.2 _ rfl).2⟩

/-- C9, counterexample: on the empty registry the exception of
`GetCudaDeviceStr()` is not distinct from the one a failing runtime query
raises.  Under a runtime whose diagnostic text is "No GPUs found." the two
exceptions are equal; under the runtime without a driver, with CUDA's own
text, both are of type `std::runtime_error`. -/
theorem C9_counterexample :
    (CudaGPUInfo.mk []).NumberGPUs = 0 ∧
    (∃ e : Exn, ((CudaGPUInfo.mk []).GetCudaDeviceStr rtSameText).out = .throw e ∧
      ((CudaGPUInfo.mk []).CurrentGPUId rtSameText).out = .throw e) ∧
    (∃ e1 e2 : Exn, ((CudaGPUInfo.mk []).GetCudaDeviceStr rtNoDriver).out = .throw e1 ∧
      ((CudaGPUInfo.mk []).CurrentGPUId rtNoDriver).out = .throw e2 ∧
      e1.isRuntimeError = true ∧ e2.isRuntimeError = true) :=
  ⟨rfl, ⟨.runtime_error "No GPUs found.", rfl, rfl⟩,
    ⟨.runtime_error "No GPUs found.",
      .runtime_error "CUDA driver version is insufficient for CUDA runtime version",
      rfl, rfl, rfl, rfl⟩⟩

/-! ## Sequences of accessor calls -/

theorem init_events_head (rt : Runtime) :
    ∃ rest, (init rt).events = .cudaGetDeviceCount :: rest := by
  unfold init
  rw [Eff.bind_call]
  exact ⟨_, rfl⟩

/-- The accessor on a thread that is not yet initialised, when `init` neither
returns nor throws. -/
theorem GPUInfo_fresh_undefined (rt : Runtime) (tl : ThreadLocal)
    (hi : tl.inited = false) (h : (init rt).out = .undefined) :
    GPUInfo rt tl = (⟨.undefined, (init rt).events⟩, tl) := by
  unfold GPUInfo
  rw [hi]
  rcases hr : init rt with ⟨o, evs⟩
  rw [hr] at h
  simp only at h
  subst h
  rfl

/-- The two ways an accessor call on a not yet initialised thread can go:
`init` returned and its result is stored, or the call did not return
normally and the thread's variables are untouched. -/
theorem GPUInfo_fresh_cases (rt : Runtime) (tl : ThreadLocal) (hi : tl.inited = false) :
    (∃ names, (init rt).out = .ok names ∧
      GPUInfo rt tl =
        (⟨.ok ⟨names⟩, (init rt).events ++ [.newCudaGPUInfo]⟩, ⟨some ⟨names⟩, true⟩)) ∨
    ((GPUInfo rt tl).2 = tl ∧ (GPUInfo rt tl).1.out.isOk = false ∧
      (GPUInfo rt tl).1.events = (init rt).events ∧
      ∀ e, (GPUInfo rt tl).1.out = .throw e → (init rt).out = .throw e) := by
  rcases hr : (init rt).out with names | e | _
  · exact Or.inl ⟨names, rfl, GPUInfo_fresh_ok rt tl names hi hr⟩
  · right
    rw [GPUInfo_fresh_throw rt tl e hi hr]
    refine ⟨rfl, rfl, rfl, ?_⟩
    intro e2 he2
    simp only [Outcome.throw.injEq] at he2
    rw [he2]
  · right
    rw [GPUInfo_fresh_undefined rt tl hi hr]
    refine ⟨rfl, rfl, rfl, ?_⟩
    intro e2 he2
    simp at he2

theorem runGPUInfo_length (rts : List Runtime) :
    ∀ tl : ThreadLocal, (runGPUInfo rts tl).1.length = rts.length := by
  induction rts with
  | nil => intro tl; rfl
  | cons rt rts ih =>
    intro tl
    simp only [runGPUInfo, List.length_cons, ih]

/-- On an initialised thread every accessor call returns `*pInfo` without
any side effect and leaves the variables as they are. -/
theorem runGPUInfo_inited (rts : List Runtime) :
    ∀ tl : ThreadLocal, tl.inited = true →
      (runGPUInfo rts tl).2 = tl ∧
      ∀ r ∈ (runGPUInfo rts tl).1, r = ⟨deref tl.pInfo, []⟩ := by
  induction rts with
  | nil => intro tl _; exact ⟨rfl, by intro r hr; simp [runGPUInfo] at hr⟩
  | cons rt rts ih =>
    intro tl hi
    simp only [runGPUInfo, GPUInfo_inited rt tl hi]
    refine ⟨(ih tl hi).1, ?_⟩
    intro r hr
    rcases List.mem_cons.mp hr with h | h
    · exact h
    · exact (ih tl hi).2 r h

/-- The variables of a thread after any sequence of accessor calls started
uninitialised: untouched, or holding the result of a successful `init` of
one of the calls. -/
theorem runGPUInfo_reachable (rts : List Runtime) :
    ∀ tl : ThreadLocal, tl.inited = false →
      (runGPUInfo rts tl).2 = tl ∨
      ∃ rt ∈ rts, ∃ names, (init rt).out = .ok names ∧
        (runGPUInfo rts tl).2 = ⟨some ⟨names⟩, true⟩ := by
  induction rts with
  | nil => intro tl _; exact Or.inl rfl
  | cons rt rts ih =>
    intro tl hi
    rcases GPUInfo_fresh_cases rt tl hi with ⟨names, hok, hG⟩ | ⟨hst, _, _, _⟩
    · right
      refine ⟨rt, List.mem_cons_self _ _, names, hok, ?_⟩
      simp only [runGPUInfo, hG]
      exact (runGPUInfo_inited rts _ rfl).1
    · simp only [runGPUInfo, hst]
      rcases ih tl hi with h | ⟨rt2, hmem, names, hok, h⟩
      · exact Or.inl h
      · exact Or.inr ⟨rt2, List.mem_cons_of_mem _ hmem, names, hok, h⟩

theorem successfulPass_no_events (o : Outcome CudaGPUInfo) :
    successfulPass ⟨o, []⟩ = false := by
  simp [successfulPass]

/-- Over any sequence of accessor calls, from any state of the thread's
variables, at most one call runs an enumeration pass that succeeds. -/
theorem runGPUInfo_passes (rs : List Runtime) :
    ∀ tl : ThreadLocal, ((runGPUInfo rs tl).1.filter successfulPass).length ≤ 1 := by
  have hnone : ∀ (l : List Runtime) (tl : ThreadLocal), tl.inited = true →
      (runGPUInfo l tl).1.filter successfulPass = [] := by
    intro l tl hi
    rw [List.filter_eq_nil_iff]
    intro r hr
    rw [(runGPUInfo_inited l tl hi).2 r hr, successfulPass_no_events]
    simp
  induction rs with
  | nil => intro tl; simp [runGPUInfo]
  | cons rt rs ih =>
    intro tl
    by_cases hi : tl.inited = true
    · rw [hnone _ tl hi]
      simp
    · have hi2 : tl.inited = false := by simpa using hi
      rcases GPUInfo_fresh_cases rt tl hi2 with ⟨names, _, hG⟩ | ⟨hst, hnok, _, _⟩
      · simp only [runGPUInfo, hG]
        rw [List.filter_cons]
        split_ifs
        · rw [hnone rs _ rfl]
          simp
        · rw [hnone rs _ rfl]
          simp
      · simp only [runGPUInfo, hst]
        rw [List.filter_cons]
        have : successfulPass (GPUInfo rt tl).1 = false := by
          simp [successfulPass, hnok]
        rw [this]
        simpa using ih tl

/-- C5: if an accessor call, made after any earlier calls on the thread,
throws, then `init` threw that exception, and the thread's variables are
after the call what they were before it, namely `pInfo` empty and `inited`
false.  The next accessor call therefore runs the enumeration again (it
issues the device-count query), and if `init` then returns a list of names
the call returns the registry holding exactly that list and caches it.  In
no reachable state does `pInfo` hold anything but the result of a
successful `init`. -/
theorem C5_failed_call_caches_nothing (rts : List Runtime) (rt : Runtime) (e : Exn)
    (h : (GPUInfo rt (runGPUInfo rts ThreadLocal.initial).2).1.out = .throw e) :
    (init rt).out = .throw e ∧
    (runGPUInfo rts ThreadLocal.initial).2 = ThreadLocal.initial ∧
    (GPUInfo rt (runGPUInfo rts ThreadLocal.initial).2).2 = ThreadLocal.initial ∧
    (∀ rt2 : Runtime,
      Event.cudaGetDeviceCount ∈
        (GPUInfo rt2 (GPUInfo rt (runGPUInfo rts ThreadLocal.initial).2).2).1.events ∧
      ∀ names, (init rt2).out = .ok names →
        GPUInfo rt2 (GPUInfo rt (runGPUInfo rts ThreadLocal.initial).2).2 =
          (⟨.ok ⟨names⟩, (init rt2).events ++ [.newCudaGPUInfo]⟩, ⟨some ⟨names⟩, true⟩)) ∧
    (∀ (l : List Runtime) (info : CudaGPUInfo),
      (runGPUInfo l ThreadLocal.initial).2.pInfo = some info →
      ∃ r ∈ l, (init r).out = .ok info.gpuNames_) := by
  have hstart : (runGPUInfo rts ThreadLocal.initial).2 = ThreadLocal.initial := by
    rcases runGPUInfo_reachable rts ThreadLocal.initial rfl with h0 | ⟨_, _, names, _, h1⟩
    · exact h0
    · rw [h1, GPUInfo_inited rt _ rfl] at h
      simp [deref] at h
  rw [hstart] at h ⊢
  have hcall : (init rt).out = .throw e ∧
      (GPUInfo rt ThreadLocal.initial).2 = ThreadLocal.initial := by
    rcases GPUInfo_fresh_cases rt ThreadLocal.initial rfl with ⟨names, _, hG⟩ | ⟨hst, _, _, hthrow⟩
    · rw [hG] at h
      simp at h
    · exact ⟨hthrow e h, hst⟩
  refine ⟨hcall.1, rfl, hcall.2, ?_, ?_⟩
  · intro rt2
    rw [hcall.2]
    constructor
    · obtain ⟨rest, hrest⟩ := init_events_head rt2
      rcases GPUInfo_fresh_cases rt2 ThreadLocal.initial rfl with ⟨names, _, hG⟩ | ⟨_, _, hev, _⟩
      · rw [hG]
        simp [hrest]
      · rw [hev, hrest]
        simp
    · intro names hok
      exact GPUInfo_fresh_ok rt2 _ names rfl hok
  · intro l info hinfo
    rcases runGPUInfo_reachable l ThreadLocal.initial rfl with h0 | ⟨r, hmem, names, hok, h1⟩
    · rw [h0] at hinfo
      simp [ThreadLocal.initial] at hinfo
    · rw [h1] at hinfo
      simp only [Option.some.injEq] at hinfo
      exact ⟨r, hmem, by rw [← hinfo]; exact hok⟩

/-- Witness of C5: the property query of device 1 fails during the first
accessor call; nothing is cached, and a second call under a runtime that
then answers with both devices builds the full registry. -/
theorem C5_failed_call_caches_nothing_witness :
    (GPUInfo rtBrokenProps (runGPUInfo [] ThreadLocal.initial).2).1.out =
      .throw (.runtime_error "invalid device ordinal") ∧
    (GPUInfo rtBrokenProps (runGPUInfo [] ThreadLocal.initial).2).2 = ThreadLocal.initial ∧
    GPUInfo rtTesla (GPUInfo rtBrokenProps (runGPUInfo [] ThreadLocal.initial).2).2 =
      (⟨.ok regTesla, (init rtTesla).events ++ [.newCudaGPUInfo]⟩, ⟨some regTesla, true⟩) :=
  ⟨rfl,
   (C5_failed_call_caches_nothing [] rtBrokenProps
      (.runtime_error "invalid device ordinal") rfl).2.2.1,
   ((C5_failed_call_caches_nothing [] rtBrokenProps
      (.runtime_error "invalid device ordinal") rfl).2.2.2.1 rtTesla).2 _ rfl⟩

/-- C6: once an accessor call on a thread has returned a registry `reg`, the
thread's variables hold `reg` and are marked initialised; every later
accessor call, whatever the runtime would answer by then, returns that same
`reg` (the object `pInfo` owns, which is never reassigned) and performs no
side effect at all: no device-count query, no property query, no
allocation.  Over any sequence of accessor calls at most one call runs an
enumeration pass that succeeds. -/
theorem C6_accessor_is_memoized (rt0 : Runtime) (tl0 : ThreadLocal) (reg : CudaGPUInfo)
    (h : (GPUInfo rt0 tl0).1.out = .ok reg) (rts : List Runtime) :
    (GPUInfo rt0 tl0).2 = ⟨some reg, true⟩ ∧
    (runGPUInfo rts (GPUInfo rt0 tl0).2).2 = ⟨some reg, true⟩ ∧
    (runGPUInfo rts (GPUInfo rt0 tl0).2).1.length = rts.length ∧
    (∀ r ∈ (runGPUInfo rts (GPUInfo rt0 tl0).2).1, r = ⟨.ok reg, []⟩) ∧
    (∀ (l : List Runtime) (tl : ThreadLocal),
      ((runGPUInfo l tl).1.filter successfulPass).length ≤ 1) := by
  have hst : (GPUInfo rt0 tl0).2 = ⟨some reg, true⟩ := by
    by_cases hi : tl0.inited = true
    · rw [GPUInfo_inited rt0 tl0 hi] at h ⊢
      simp only at h ⊢
      rcases tl0 with ⟨p, b⟩
      simp only at hi h
      subst hi
      cases p with
      | none => simp [deref] at h
      | some x =>
        simp only [deref, Outcome.ok.injEq] at h
        rw [h]
    · have hi2 : tl0.inited = false := by simpa using hi
      rcases GPUInfo_fresh_cases rt0 tl0 hi2 with ⟨names, _, hG⟩ | ⟨_, hnok, _, _⟩
      · rw [hG] at h ⊢
        simp only [Outcome.ok.injEq] at h
        rw [← h]
      · rw [h] at hnok
        simp [Outcome.isOk] at hnok
  rw [hst]
  have hrun := runGPUInfo_inited rts ⟨some reg, true⟩ rfl
  exact ⟨rfl, hrun.1, runGPUInfo_length rts _, hrun.2, fun l tl => runGPUInfo_passes l tl⟩

/-- Witness of C6: after a first call that found the two Tesla devices, three
more calls, under a runtime without a driver, a runtime with a failing
property query and the first runtime again, return the same registry
without any side effect. -/
theorem C6_accessor_is_memoized_witness :
    (GPUInfo rtTesla ThreadLocal.initial).1.out = .ok regTesla ∧
    (runGPUInfo [rtNoDriver, rtBrokenProps, rtTesla]
      (GPUInfo rtTesla ThreadLocal.initial).2).2 = ⟨some regTesla, true⟩ ∧
    (∀ r ∈ (runGPUInfo [rtNoDriver, rtBrokenProps, rtTesla]
      (GPUInfo rtTesla ThreadLocal.initial).2).1, r = ⟨.ok regTesla, []⟩) ∧
    ((runGPUInfo [rtBrokenProps, rtTesla, rtNoDriver, rtTesla]
      ThreadLocal.initial).1.filter successfulPass).length ≤ 1 :=
  ⟨rfl,
   (C6_accessor_is_memoized rtTesla ThreadLocal.initial regTesla rfl
      [rtNoDriver, rtBrokenProps, rtTesla]).2.1,
   (C6_accessor_is_memoized rtTesla ThreadLocal.initial regTesla rfl
      [rtNoDriver, rtBrokenProps, rtTesla]).2.2.2.1,
   (C6_accessor_is_memoized rtTesla ThreadLocal.initial regTesla rfl
      [rtNoDriver, rtBrokenProps, rtTesla]).2.2.2.2 _ _⟩

end tc
